import Mathlib

/-!
Verification of the geometry-generation library declared in
`GeometryGenerator.h` (MaybeCanadian/Game3111_FinalProject).

The repository ships only the header: the data model (`Vertex`, `MeshData`)
and the body of `MeshData::GetIndices16` are given there in full, while the
builder bodies (`CreateBox`, `CreateSphere`, `Subdivide`, ...) are only
declared.  Those missing bodies are modelled here from the natural-language
specification (each such definition carries a `Modelled from the spec:`
doc comment).  Scalar attributes are embedded as exact rationals (`ℚ`)
standing for the C++ `float` fields, and machine indices as `Nat` with the
32→16-bit cast made explicit as reduction modulo 2^16.
-/

namespace GeomGen

/-- Embedding of `DirectX::XMFLOAT3` (the three float components). -/
structure Float3 where
  x : ℚ
  y : ℚ
  z : ℚ
deriving DecidableEq

/-- Embedding of `DirectX::XMFLOAT2`. -/
structure Float2 where
  x : ℚ
  y : ℚ
deriving DecidableEq

/-- Embedding of `GeometryGenerator::Vertex` (GeometryGenerator.h lines 28-54):
position, normal, tangent and texture coordinate. -/
structure Vertex where
  Position : Float3
  Normal : Float3
  TangentU : Float3
  TexC : Float2
deriving DecidableEq

/-- The default-constructed vertex `Vertex(){}` (all fields zero). -/
def defaultVertex : Vertex :=
  ⟨⟨0, 0, 0⟩, ⟨0, 0, 0⟩, ⟨0, 0, 0⟩, ⟨0, 0⟩⟩

/-- Embedding of `GeometryGenerator::MeshData` (GeometryGenerator.h lines
56-75): the vertex sequence, the wide (32-bit) index sequence, and the
private narrow-index cache `mIndices16`, empty on construction. -/
structure MeshData where
  Vertices : List Vertex
  Indices32 : List Nat
  mIndices16 : List Nat := []
deriving DecidableEq

/-- Embedding of `MeshData::GetIndices16` (GeometryGenerator.h lines 61-71):
if the cache `mIndices16` is empty it is filled with
`static_cast<uint16>(Indices32[i])` for each `i` (truncation modulo 2^16),
then the cache is returned.  The call is stateful, so the embedding returns
both the result and the updated `MeshData`. -/
def MeshData.GetIndices16 (m : MeshData) : List Nat × MeshData :=
  if m.mIndices16.isEmpty then
    let r := m.Indices32.map (fun i => i % 65536)
    (r, { m with mIndices16 := r })
  else
    (m.mIndices16, m)

/-- C1: on a freshly built `MeshData` (empty cache), the first call to
`GetIndices16` returns exactly the element-wise truncation modulo 2^16 of
`Indices32`; that result equals `Indices32` itself whenever every index is
at most 65535; and a second call on the resulting state returns the same
sequence again. -/
theorem getIndices16_first_call_truncates_then_caches
    (m : MeshData) (hm : m.mIndices16 = []) :
    (m.GetIndices16).1 = m.Indices32.map (fun i => i % 65536) ∧
    ((∀ i ∈ m.Indices32, i ≤ 65535) → (m.GetIndices16).1 = m.Indices32) ∧
    ((m.GetIndices16).2.GetIndices16).1 = (m.GetIndices16).1 := by
  have hg : m.GetIndices16 =
      (m.Indices32.map (fun i => i % 65536),
       { m with mIndices16 := m.Indices32.map (fun i => i % 65536) }) := by
    simp [MeshData.GetIndices16, hm]
  have hid : ∀ l : List Nat, (∀ i ∈ l, i ≤ 65535) →
      l.map (fun i => i % 65536) = l := by
    intro l hl
    induction l with
    | nil => rfl
    | cons a t ih =>
      have ha : a % 65536 = a := Nat.mod_eq_of_lt (by have := hl a (by simp); omega)
      simp only [List.map_cons, ha, List.cons.injEq, true_and]
      exact ih (fun i hi => hl i (by simp [hi]))
  refine ⟨by rw [hg], ?_, ?_⟩
  · intro hle
    rw [hg]
    exact hid m.Indices32 hle
  · rw [hg]
    by_cases hc : (m.Indices32.map (fun i => i % 65536)).isEmpty
    · have : m.Indices32.isEmpty := by
        simpa using hc
      simp [MeshData.GetIndices16, hc, List.isEmpty_iff.mp this]
    · simp [MeshData.GetIndices16, hc]

/-- Witness for C1 at a concrete mesh: indices `[0, 70000]` truncate to
`[0, 4464]` (70000 mod 65536 = 4464) and the second call agrees. -/
theorem getIndices16_first_call_truncates_then_caches_witness :
    (MeshData.GetIndices16 ⟨[], [0, 70000], []⟩).1 = [0, 4464] ∧
    ((MeshData.GetIndices16 (MeshData.GetIndices16 ⟨[], [0, 70000], []⟩).2).1 =
      (MeshData.GetIndices16 ⟨[], [0, 70000], []⟩).1) := by
  have h := getIndices16_first_call_truncates_then_caches ⟨[], [0, 70000], []⟩ rfl
  exact ⟨by rw [h.1]; decide, h.2.2⟩

/-- The concrete mesh showing that the narrow-index cache is not
single-assignment when `Indices32` is empty at the first call: the cache
stays empty, so a later call recomputes from the mutated `Indices32`. -/
def emptyIndexMesh : MeshData := ⟨[], [], []⟩

/-- C2 counterexample: start from a mesh with no indices, call
`GetIndices16` (result `[]`), then mutate `Indices32` to `[5]`; the next
call returns `[5]`, not the value computed at the first call.  The cache
left by the first call is the empty list, which the guard
`if(mIndices16.empty())` cannot distinguish from "never computed". -/
theorem getIndices16_recomputes_after_empty_first_call :
    ¬ ((({ (emptyIndexMesh.GetIndices16).2 with Indices32 := [5] } :
          MeshData).GetIndices16).1 = (emptyIndexMesh.GetIndices16).1) := by
  decide

/-- C2 (amended): provided `Indices32` is nonempty at the first call (true
for every mesh a builder returns with at least one triangle), the cache is
single-assignment — after the first call, any replacement of `Indices32`
leaves the value returned by a later `GetIndices16` equal to the value
computed at the first call. -/
theorem getIndices16_single_assignment_of_nonempty
    (m : MeshData) (hm : m.mIndices16 = []) (hne : m.Indices32 ≠ [])
    (l : List Nat) :
    (({ (m.GetIndices16).2 with Indices32 := l } : MeshData).GetIndices16).1 =
      (m.GetIndices16).1 := by
  have hg : m.GetIndices16 =
      (m.Indices32.map (fun i => i % 65536),
       { m with mIndices16 := m.Indices32.map (fun i => i % 65536) }) := by
    simp [MeshData.GetIndices16, hm]
  have hcne : (m.Indices32.map (fun i => i % 65536)).isEmpty = false := by
    simp [List.isEmpty_iff, hne]
  rw [hg]
  simp [MeshData.GetIndices16, hcne]

/-- Witness for C2 (amended) at a concrete mesh: first read of `[7]` gives
`[7]`; after replacing the indices by `[9]`, a later read still gives `[7]`. -/
theorem getIndices16_single_assignment_of_nonempty_witness :
    (({ ((⟨[], [7], []⟩ : MeshData).GetIndices16).2 with Indices32 := [9] } :
        MeshData).GetIndices16).1 = ((⟨[], [7], []⟩ : MeshData).GetIndices16).1 :=
  getIndices16_single_assignment_of_nonempty ⟨[], [7], []⟩ rfl (by decide) [9]

/-- Component-wise midpoint of two 3-component vectors,
`0.5f * (a + b)` in the source idiom. -/
def mid3 (a b : Float3) : Float3 :=
  ⟨(a.x + b.x) / 2, (a.y + b.y) / 2, (a.z + b.z) / 2⟩

/-- Component-wise midpoint of two 2-component vectors. -/
def mid2 (a b : Float2) : Float2 :=
  ⟨(a.x + b.x) / 2, (a.y + b.y) / 2⟩

/-- Modelled from the spec: `GeometryGenerator::MidPoint` (declared at
GeometryGenerator.h line 139; the body is not in the repository).
Spec §4.10: "returns a new vertex whose position, normal, tangent, and
texture coordinate are each the simple linear average of A's and B's
corresponding field — normals and tangents are not renormalized". -/
def MidPoint (v0 v1 : Vertex) : Vertex :=
  ⟨mid3 v0.Position v1.Position,
   mid3 v0.Normal v1.Normal,
   mid3 v0.TangentU v1.TangentU,
   mid2 v0.TexC v1.TexC⟩

/-- Squared Euclidean length of a 3-component vector. -/
def normSq3 (a : Float3) : ℚ :=
  a.x * a.x + a.y * a.y + a.z * a.z

/-- A vertex with unit normal pointing along +x (all other fields zero),
used to exhibit that `MidPoint` does not renormalize. -/
def unitNormalX : Vertex := ⟨⟨0, 0, 0⟩, ⟨1, 0, 0⟩, ⟨0, 0, 0⟩, ⟨0, 0⟩⟩

/-- A vertex with unit normal pointing along +y (all other fields zero). -/
def unitNormalY : Vertex := ⟨⟨0, 0, 0⟩, ⟨0, 1, 0⟩, ⟨0, 0, 0⟩, ⟨0, 0⟩⟩

/-- C9: `MidPoint A B` averages every component of position, normal,
tangent and texture coordinate, and performs no renormalization: two unit
input normals can yield a result normal of non-unit length. -/
theorem midPoint_averages_all_fields_without_renormalizing :
    (∀ a b : Vertex,
      (MidPoint a b).Position.x = (a.Position.x + b.Position.x) / 2 ∧
      (MidPoint a b).Position.y = (a.Position.y + b.Position.y) / 2 ∧
      (MidPoint a b).Position.z = (a.Position.z + b.Position.z) / 2 ∧
      (MidPoint a b).Normal.x = (a.Normal.x + b.Normal.x) / 2 ∧
      (MidPoint a b).Normal.y = (a.Normal.y + b.Normal.y) / 2 ∧
      (MidPoint a b).Normal.z = (a.Normal.z + b.Normal.z) / 2 ∧
      (MidPoint a b).TangentU.x = (a.TangentU.x + b.TangentU.x) / 2 ∧
      (MidPoint a b).TangentU.y = (a.TangentU.y + b.TangentU.y) / 2 ∧
      (MidPoint a b).TangentU.z = (a.TangentU.z + b.TangentU.z) / 2 ∧
      (MidPoint a b).TexC.x = (a.TexC.x + b.TexC.x) / 2 ∧
      (MidPoint a b).TexC.y = (a.TexC.y + b.TexC.y) / 2) ∧
    (normSq3 unitNormalX.Normal = 1 ∧ normSq3 unitNormalY.Normal = 1 ∧
      normSq3 ((MidPoint unitNormalX unitNormalY).Normal) ≠ 1) := by
  refine ⟨fun a b => ?_, ?_, ?_, ?_⟩
  · exact ⟨rfl, rfl, rfl, rfl, rfl, rfl, rfl, rfl, rfl, rfl, rfl⟩
  · norm_num [normSq3, unitNormalX]
  · norm_num [normSq3, unitNormalY]
  · norm_num [normSq3, MidPoint, mid3, unitNormalX, unitNormalY]

/-- C10: `MidPoint` is commutative in its two arguments: every field of
`MidPoint A B` equals the corresponding field of `MidPoint B A`, because
the averaged sums commute. -/
theorem midPoint_comm (a b : Vertex) : MidPoint a b = MidPoint b a := by
  cases a with
  | mk ap an at' ac =>
    cases b with
    | mk bp bn bt bc =>
      cases ap; cases an; cases at'; cases ac
      cases bp; cases bn; cases bt; cases bc
      simp only [MidPoint, mid3, mid2, Vertex.mk.injEq, Float3.mk.injEq,
        Float2.mk.injEq]
      refine ⟨⟨?_, ?_, ?_⟩, ⟨?_, ?_, ?_⟩, ⟨?_, ?_, ?_⟩, ?_, ?_⟩ <;> ring

/-- Number of whole triangles described by the index sequence. -/
def numTris (m : MeshData) : Nat :=
  m.Indices32.length / 3

/-- The index value stored at position `j` of the wide index sequence
(0 when out of range; builders never read out of range). -/
def idxAt (m : MeshData) (j : Nat) : Nat :=
  m.Indices32.getD j 0

/-- Corner `k` (0, 1 or 2) of triangle `t`:
`Vertices[ Indices32[3t+k] ]`, the fetch performed by `Subdivide`. -/
def corner (m : MeshData) (t k : Nat) : Vertex :=
  m.Vertices.getD (idxAt m (3 * t + k)) defaultVertex

/-- The three edge midpoints `m01, m12, m20` generated for triangle `t`. -/
def triMids (m : MeshData) (t : Nat) : List Vertex :=
  [MidPoint (corner m t 0) (corner m t 1),
   MidPoint (corner m t 1) (corner m t 2),
   MidPoint (corner m t 2) (corner m t 0)]

/-- All midpoint vertices appended by one subdivision pass, three per
original triangle, in triangle order. -/
def midsOf (m : MeshData) : List Vertex :=
  (List.range (numTris m)).flatMap (triMids m)

/-- The twelve replacement indices for original triangle `t`: with the
original corners `i0 i1 i2` and the midpoints stored at
`V + 3t (m01), V + 3t + 1 (m12), V + 3t + 2 (m20)`, emit the three corner
triangles and the center triangle. -/
def subIdxBlock (V t i0 i1 i2 : Nat) : List Nat :=
  [i0, V + 3 * t, V + 3 * t + 2,
   V + 3 * t, i1, V + 3 * t + 1,
   V + 3 * t + 2, V + 3 * t + 1, i2,
   V + 3 * t, V + 3 * t + 1, V + 3 * t + 2]

/-- Modelled from the spec: `GeometryGenerator::Subdivide` (declared at
GeometryGenerator.h line 136; the body is not in the repository).
Spec §4.9: one pass over the triangle list; for each triangle compute the
three edge midpoints via the Midpoint Interpolator, append them to the
vertex sequence (the vertex sequence only grows, no welding), and replace
the whole index sequence by four triangles per original triangle. -/
def Subdivide (m : MeshData) : MeshData :=
  { Vertices := m.Vertices ++ midsOf m,
    Indices32 := (List.range (numTris m)).flatMap (fun t =>
      subIdxBlock m.Vertices.length t (idxAt m (3 * t)) (idxAt m (3 * t + 1))
        (idxAt m (3 * t + 2))),
    mIndices16 := m.mIndices16 }

/-- Length of a `flatMap` over `List.range` whose blocks all have length `L`. -/
theorem length_flatMap_range {α : Type} (g : Nat → List α) (L : Nat)
    (hg : ∀ i, (g i).length = L) (n : Nat) :
    ((List.range n).flatMap g).length = n * L := by
  induction n with
  | zero => simp
  | succ n ih =>
    rw [List.range_succ, List.flatMap_append, List.length_append, ih]
    simp [hg, Nat.succ_mul]

/-- Element `i * L + k` of a `flatMap` over `List.range n` with constant
block length `L` is element `k` of block `i`. -/
theorem getD_flatMap_range {α : Type} (g : Nat → List α) (L : Nat)
    (hg : ∀ i, (g i).length = L) (k : Nat) (hk : k < L) (d : α) :
    ∀ n, ∀ i, i < n →
      ((List.range n).flatMap g).getD (i * L + k) d = (g i).getD k d := by
  intro n
  induction n with
  | zero => omega
  | succ n ih =>
    intro i hi
    rw [List.range_succ, List.flatMap_append]
    rcases Nat.lt_or_ge i n with hin | hin
    · have hlt : i * L + k < ((List.range n).flatMap g).length := by
        rw [length_flatMap_range g L hg n]
        have h1 : i * L + k < (i + 1) * L := by
          rw [Nat.succ_mul]; omega
        have h2 : (i + 1) * L ≤ n * L := Nat.mul_le_mul_right L (by omega)
        omega
      rw [List.getD_append _ _ _ _ hlt]
      exact ih i hin
    · have hieq : i = n := by omega
      subst hieq
      have hlen : ((List.range i).flatMap g).length = i * L :=
        length_flatMap_range g L hg i
      rw [List.getD_append_right _ _ _ _ (by omega : ((List.range i).flatMap g).length ≤ i * L + k)]
      rw [hlen]
      simp [Nat.add_sub_cancel_left]

theorem midsOf_length (m : MeshData) : (midsOf m).length = 3 * numTris m := by
  rw [midsOf, length_flatMap_range (triMids m) 3 (fun _ => rfl)]
  omega

theorem subdivide_indices_length (m : MeshData) :
    (Subdivide m).Indices32.length = 12 * numTris m := by
  have h := length_flatMap_range
    (fun t => subIdxBlock m.Vertices.length t (idxAt m (3 * t)) (idxAt m (3 * t + 1))
      (idxAt m (3 * t + 2))) 12 (fun _ => rfl) (numTris m)
  simp only [Subdivide] at h ⊢
  rw [h]
  omega

theorem subdivide_vertices_eq (m : MeshData) :
    (Subdivide m).Vertices = m.Vertices ++ midsOf m := rfl

/-- C3: one subdivision of a triangle-list mesh (`3T` stored indices)
produces exactly `4T` triangles and `V + 3T` vertices; the original vertex
sequence is preserved as a prefix with exactly the `3T` midpoints appended,
and the index sequence is wholly replaced (its length becomes `12T`). -/
theorem subdivide_counts (m : MeshData) (T : Nat)
    (h : m.Indices32.length = 3 * T) :
    (Subdivide m).Vertices.length = m.Vertices.length + 3 * T ∧
    numTris (Subdivide m) = 4 * T ∧
    (Subdivide m).Vertices = m.Vertices ++ midsOf m ∧
    (midsOf m).length = 3 * T ∧
    (Subdivide m).Indices32.length = 3 * (4 * T) := by
  have hT : numTris m = T := by rw [numTris, h]; omega
  have hmids : (midsOf m).length = 3 * T := by rw [midsOf_length, hT]
  have hidx : (Subdivide m).Indices32.length = 3 * (4 * T) := by
    rw [subdivide_indices_length, hT]; ring
  refine ⟨?_, ?_, subdivide_vertices_eq m, hmids, hidx⟩
  · rw [subdivide_vertices_eq, List.length_append, hmids]
  · rw [numTris, hidx]; omega

/-- Witness for C3 on a concrete one-triangle mesh: 3 vertices and 1
triangle become 6 vertices and 4 triangles. -/
theorem subdivide_counts_witness :
    (Subdivide ⟨[defaultVertex, unitNormalX, unitNormalY], [0, 1, 2], []⟩).Vertices.length =
        3 + 3 * 1 ∧
    numTris (Subdivide ⟨[defaultVertex, unitNormalX, unitNormalY], [0, 1, 2], []⟩) = 4 * 1 := by
  have h := subdivide_counts ⟨[defaultVertex, unitNormalX, unitNormalY], [0, 1, 2], []⟩ 1 rfl
  exact ⟨h.1, h.2.1⟩

/-- One quad face: four vertices sharing a face-local normal and tangent
with a full [0,1]×[0,1] texture square (spec §4.2, §9: face descriptor
consumed by a shared emit routine). -/
def quadFace (p0 p1 p2 p3 n t : Float3) : List Vertex :=
  [⟨p0, n, t, ⟨0, 1⟩⟩, ⟨p1, n, t, ⟨0, 0⟩⟩, ⟨p2, n, t, ⟨1, 0⟩⟩, ⟨p3, n, t, ⟨1, 1⟩⟩]

/-- One triangular face: three vertices sharing a face-local normal and
tangent. -/
def triFace (p0 p1 p2 n t : Float3) : List Vertex :=
  [⟨p0, n, t, ⟨0, 1⟩⟩, ⟨p1, n, t, ⟨1, 1⟩⟩, ⟨p2, n, t, ⟨1, 0⟩⟩]

/-- Two triangles for the quad face whose four vertices start at `b`. -/
def quadIdx (b : Nat) : List Nat :=
  [b, b + 1, b + 2, b, b + 2, b + 3]

/-- The index triples of the six-face box: face `f` owns vertices
`4f .. 4f+3`. -/
def boxIdx : List Nat :=
  quadIdx 0 ++ quadIdx 4 ++ quadIdx 8 ++ quadIdx 12 ++ quadIdx 16 ++ quadIdx 20

/-- Modelled from the spec: the six independent faces of
`GeometryGenerator::CreateBox` (declared at GeometryGenerator.h line 81;
the body is not in the repository).  Spec §4.2: six faces of 4 vertices
each with face-local normal/tangent/UV (24 vertices, not 8), two triangles
per face. -/
def boxBase (w h d : ℚ) : MeshData :=
  { Vertices :=
      quadFace ⟨-(w/2), -(h/2), -(d/2)⟩ ⟨-(w/2), h/2, -(d/2)⟩ ⟨w/2, h/2, -(d/2)⟩
        ⟨w/2, -(h/2), -(d/2)⟩ ⟨0, 0, -1⟩ ⟨1, 0, 0⟩ ++
      quadFace ⟨-(w/2), -(h/2), d/2⟩ ⟨w/2, -(h/2), d/2⟩ ⟨w/2, h/2, d/2⟩
        ⟨-(w/2), h/2, d/2⟩ ⟨0, 0, 1⟩ ⟨-1, 0, 0⟩ ++
      quadFace ⟨-(w/2), h/2, -(d/2)⟩ ⟨-(w/2), h/2, d/2⟩ ⟨w/2, h/2, d/2⟩
        ⟨w/2, h/2, -(d/2)⟩ ⟨0, 1, 0⟩ ⟨1, 0, 0⟩ ++
      quadFace ⟨-(w/2), -(h/2), -(d/2)⟩ ⟨w/2, -(h/2), -(d/2)⟩ ⟨w/2, -(h/2), d/2⟩
        ⟨-(w/2), -(h/2), d/2⟩ ⟨0, -1, 0⟩ ⟨-1, 0, 0⟩ ++
      quadFace ⟨-(w/2), -(h/2), d/2⟩ ⟨-(w/2), h/2, d/2⟩ ⟨-(w/2), h/2, -(d/2)⟩
        ⟨-(w/2), -(h/2), -(d/2)⟩ ⟨-1, 0, 0⟩ ⟨0, 0, -1⟩ ++
      quadFace ⟨w/2, -(h/2), -(d/2)⟩ ⟨w/2, h/2, -(d/2)⟩ ⟨w/2, h/2, d/2⟩
        ⟨w/2, -(h/2), d/2⟩ ⟨1, 0, 0⟩ ⟨0, 0, 1⟩,
    Indices32 := boxIdx,
    mIndices16 := [] }

/-- Modelled from the spec: the box-family subdivision pass — the mesh is
run through the Subdivision Engine `numSubdivisions` times, clamped to a
maximum of 6 to bound output size (spec §4.2). -/
def applySubdivisions (numSubdivisions : Nat) (m : MeshData) : MeshData :=
  Subdivide^[min numSubdivisions 6] m

/-- Modelled from the spec: `GeometryGenerator::CreateBox`
(GeometryGenerator.h line 81; body not in the repository). -/
def CreateBox (w h d : ℚ) (numSubdivisions : Nat) : MeshData :=
  applySubdivisions numSubdivisions (boxBase w h d)

/-- Index triples of the wedge: three quad faces then two triangle ends. -/
def wedgeIdx : List Nat :=
  quadIdx 0 ++ quadIdx 4 ++ quadIdx 8 ++ [12, 13, 14] ++ [15, 16, 17]

/-- Modelled from the spec: the base solid of
`GeometryGenerator::CreateWedge` (GeometryGenerator.h line 108; body not
in the repository).  Spec §4.6: a box missing one face — bottom, back and
slant quads plus two triangulated ends, every face with its own vertices. -/
def wedgeBase (h w d : ℚ) : MeshData :=
  { Vertices :=
      quadFace ⟨-(w/2), -(h/2), -(d/2)⟩ ⟨w/2, -(h/2), -(d/2)⟩ ⟨w/2, -(h/2), d/2⟩
        ⟨-(w/2), -(h/2), d/2⟩ ⟨0, -1, 0⟩ ⟨1, 0, 0⟩ ++
      quadFace ⟨-(w/2), -(h/2), d/2⟩ ⟨w/2, -(h/2), d/2⟩ ⟨w/2, h/2, d/2⟩
        ⟨-(w/2), h/2, d/2⟩ ⟨0, 0, 1⟩ ⟨-1, 0, 0⟩ ++
      quadFace ⟨-(w/2), -(h/2), -(d/2)⟩ ⟨w/2, -(h/2), -(d/2)⟩ ⟨w/2, h/2, d/2⟩
        ⟨-(w/2), h/2, d/2⟩ ⟨0, d, -h⟩ ⟨1, 0, 0⟩ ++
      triFace ⟨-(w/2), -(h/2), -(d/2)⟩ ⟨-(w/2), -(h/2), d/2⟩ ⟨-(w/2), h/2, d/2⟩
        ⟨-1, 0, 0⟩ ⟨0, 0, 1⟩ ++
      triFace ⟨w/2, -(h/2), -(d/2)⟩ ⟨w/2, h/2, d/2⟩ ⟨w/2, -(h/2), d/2⟩
        ⟨1, 0, 0⟩ ⟨0, 0, -1⟩,
    Indices32 := wedgeIdx,
    mIndices16 := [] }

/-- Modelled from the spec: `GeometryGenerator::CreateWedge`
(GeometryGenerator.h line 108); `numSubdivisions` is applied via the
Subdivision Engine identically to the box (spec §4.6). -/
def CreateWedge (height width depth : ℚ) (numSubdivisions : Nat) : MeshData :=
  applySubdivisions numSubdivisions (wedgeBase height width depth)

/-- Index triples of the pointed pyramid: bottom quad then four side
triangles. -/
def pyramidApexIdx : List Nat :=
  quadIdx 0 ++ [4, 5, 6] ++ [7, 8, 9] ++ [10, 11, 12] ++ [13, 14, 15]

/-- Modelled from the spec: `GeometryGenerator::CreatePyramid`
(GeometryGenerator.h line 113; body not in the repository).  Per the
header it takes only `bottomSide`, `topSide` and `height` — there is no
subdivision parameter.  Spec §4.6: degenerates to a point when the top
side length is 0 (fewer vertices), otherwise a frustum built like the box
from bottom/top squares. -/
def CreatePyramid (bottomSide topSide height : ℚ) : MeshData :=
  if topSide = 0 then
    { Vertices :=
        quadFace ⟨-(bottomSide/2), -(height/2), -(bottomSide/2)⟩
          ⟨bottomSide/2, -(height/2), -(bottomSide/2)⟩
          ⟨bottomSide/2, -(height/2), bottomSide/2⟩
          ⟨-(bottomSide/2), -(height/2), bottomSide/2⟩ ⟨0, -1, 0⟩ ⟨1, 0, 0⟩ ++
        triFace ⟨-(bottomSide/2), -(height/2), -(bottomSide/2)⟩
          ⟨bottomSide/2, -(height/2), -(bottomSide/2)⟩ ⟨0, height/2, 0⟩
          ⟨0, bottomSide, -height⟩ ⟨1, 0, 0⟩ ++
        triFace ⟨bottomSide/2, -(height/2), -(bottomSide/2)⟩
          ⟨bottomSide/2, -(height/2), bottomSide/2⟩ ⟨0, height/2, 0⟩
          ⟨height, bottomSide, 0⟩ ⟨0, 0, 1⟩ ++
        triFace ⟨bottomSide/2, -(height/2), bottomSide/2⟩
          ⟨-(bottomSide/2), -(height/2), bottomSide/2⟩ ⟨0, height/2, 0⟩
          ⟨0, bottomSide, height⟩ ⟨-1, 0, 0⟩ ++
        triFace ⟨-(bottomSide/2), -(height/2), bottomSide/2⟩
          ⟨-(bottomSide/2), -(height/2), -(bottomSide/2)⟩ ⟨0, height/2, 0⟩
          ⟨-height, bottomSide, 0⟩ ⟨0, 0, -1⟩,
      Indices32 := pyramidApexIdx,
      mIndices16 := [] }
  else
    { Vertices :=
        quadFace ⟨-(bottomSide/2), -(height/2), -(bottomSide/2)⟩
          ⟨bottomSide/2, -(height/2), -(bottomSide/2)⟩
          ⟨bottomSide/2, -(height/2), bottomSide/2⟩
          ⟨-(bottomSide/2), -(height/2), bottomSide/2⟩ ⟨0, -1, 0⟩ ⟨1, 0, 0⟩ ++
        quadFace ⟨-(topSide/2), height/2, -(topSide/2)⟩
          ⟨topSide/2, height/2, -(topSide/2)⟩ ⟨topSide/2, height/2, topSide/2⟩
          ⟨-(topSide/2), height/2, topSide/2⟩ ⟨0, 1, 0⟩ ⟨1, 0, 0⟩ ++
        quadFace ⟨-(bottomSide/2), -(height/2), -(bottomSide/2)⟩
          ⟨bottomSide/2, -(height/2), -(bottomSide/2)⟩
          ⟨topSide/2, height/2, -(topSide/2)⟩ ⟨-(topSide/2), height/2, -(topSide/2)⟩
          ⟨0, bottomSide - topSide, -height⟩ ⟨1, 0, 0⟩ ++
        quadFace ⟨bottomSide/2, -(height/2), -(bottomSide/2)⟩
          ⟨bottomSide/2, -(height/2), bottomSide/2⟩ ⟨topSide/2, height/2, topSide/2⟩
          ⟨topSide/2, height/2, -(topSide/2)⟩ ⟨height, bottomSide - topSide, 0⟩
          ⟨0, 0, 1⟩ ++
        quadFace ⟨bottomSide/2, -(height/2), bottomSide/2⟩
          ⟨-(bottomSide/2), -(height/2), bottomSide/2⟩
          ⟨-(topSide/2), height/2, topSide/2⟩ ⟨topSide/2, height/2, topSide/2⟩
          ⟨0, bottomSide - topSide, height⟩ ⟨-1, 0, 0⟩ ++
        quadFace ⟨-(bottomSide/2), -(height/2), bottomSide/2⟩
          ⟨-(bottomSide/2), -(height/2), -(bottomSide/2)⟩
          ⟨-(topSide/2), height/2, -(topSide/2)⟩ ⟨-(topSide/2), height/2, topSide/2⟩
          ⟨-height, bottomSide - topSide, 0⟩ ⟨0, 0, -1⟩,
      Indices32 := boxIdx,
      mIndices16 := [] }

/-- Modelled from the spec: the base solid of
`GeometryGenerator::CreateTriangularPrism` (GeometryGenerator.h line 117;
body not in the repository).  Spec §4.6: a wedge variant whose slanted
face is relocated to the middle, making two angled sides — bottom quad,
two slant quads up to a central ridge, and two triangulated ends. -/
def prismBase (h w d : ℚ) : MeshData :=
  { Vertices :=
      quadFace ⟨-(w/2), -(h/2), -(d/2)⟩ ⟨w/2, -(h/2), -(d/2)⟩ ⟨w/2, -(h/2), d/2⟩
        ⟨-(w/2), -(h/2), d/2⟩ ⟨0, -1, 0⟩ ⟨1, 0, 0⟩ ++
      quadFace ⟨-(w/2), -(h/2), -(d/2)⟩ ⟨w/2, -(h/2), -(d/2)⟩ ⟨w/2, h/2, 0⟩
        ⟨-(w/2), h/2, 0⟩ ⟨0, d, -h⟩ ⟨1, 0, 0⟩ ++
      quadFace ⟨-(w/2), -(h/2), d/2⟩ ⟨w/2, -(h/2), d/2⟩ ⟨w/2, h/2, 0⟩
        ⟨-(w/2), h/2, 0⟩ ⟨0, d, h⟩ ⟨1, 0, 0⟩ ++
      triFace ⟨-(w/2), -(h/2), -(d/2)⟩ ⟨-(w/2), -(h/2), d/2⟩ ⟨-(w/2), h/2, 0⟩
        ⟨-1, 0, 0⟩ ⟨0, 0, 1⟩ ++
      triFace ⟨w/2, -(h/2), -(d/2)⟩ ⟨w/2, h/2, 0⟩ ⟨w/2, -(h/2), d/2⟩
        ⟨1, 0, 0⟩ ⟨0, 0, -1⟩,
    Indices32 := wedgeIdx,
    mIndices16 := [] }

/-- Modelled from the spec: `GeometryGenerator::CreateTriangularPrism`
(GeometryGenerator.h line 117); `numSubdivisions` is applied via the
Subdivision Engine identically to the box (spec §4.6). -/
def CreateTriangularPrism (height width depth : ℚ) (numSubdivisions : Nat) :
    MeshData :=
  applySubdivisions numSubdivisions (prismBase height width depth)

/-- Index triples of the diamond: eight independent triangular faces. -/
def diamondIdx : List Nat :=
  [0, 1, 2, 3, 4, 5, 6, 7, 8, 9, 10, 11,
   12, 13, 14, 15, 16, 17, 18, 19, 20, 21, 22, 23]

/-- Modelled from the spec: the base solid of
`GeometryGenerator::CreateDiamond` (GeometryGenerator.h line 122; body not
in the repository).  Spec §4.6: an independently specified rotated-box
solid — a top apex and bottom apex joined to four equator corners by
eight triangular faces, each face with its own vertices. -/
def diamondBase (w h : ℚ) : MeshData :=
  { Vertices :=
      triFace ⟨-(w/2), 0, 0⟩ ⟨0, 0, -(w/2)⟩ ⟨0, h/2, 0⟩ ⟨-h, 0, -h⟩ ⟨1, 0, -1⟩ ++
      triFace ⟨0, 0, -(w/2)⟩ ⟨w/2, 0, 0⟩ ⟨0, h/2, 0⟩ ⟨h, 0, -h⟩ ⟨1, 0, 1⟩ ++
      triFace ⟨w/2, 0, 0⟩ ⟨0, 0, w/2⟩ ⟨0, h/2, 0⟩ ⟨h, 0, h⟩ ⟨-1, 0, 1⟩ ++
      triFace ⟨0, 0, w/2⟩ ⟨-(w/2), 0, 0⟩ ⟨0, h/2, 0⟩ ⟨-h, 0, h⟩ ⟨-1, 0, -1⟩ ++
      triFace ⟨0, 0, -(w/2)⟩ ⟨-(w/2), 0, 0⟩ ⟨0, -(h/2), 0⟩ ⟨-h, 0, -h⟩ ⟨-1, 0, 1⟩ ++
      triFace ⟨w/2, 0, 0⟩ ⟨0, 0, -(w/2)⟩ ⟨0, -(h/2), 0⟩ ⟨h, 0, -h⟩ ⟨-1, 0, -1⟩ ++
      triFace ⟨0, 0, w/2⟩ ⟨w/2, 0, 0⟩ ⟨0, -(h/2), 0⟩ ⟨h, 0, h⟩ ⟨1, 0, -1⟩ ++
      triFace ⟨-(w/2), 0, 0⟩ ⟨0, 0, w/2⟩ ⟨0, -(h/2), 0⟩ ⟨-h, 0, h⟩ ⟨1, 0, 1⟩,
    Indices32 := diamondIdx,
    mIndices16 := [] }

/-- Modelled from the spec: `GeometryGenerator::CreateDiamond`
(GeometryGenerator.h line 122); `numSubdivisions` is applied via the
Subdivision Engine identically to the box (spec §4.6). -/
def CreateDiamond (width height : ℚ) (numSubdivisions : Nat) : MeshData :=
  applySubdivisions numSubdivisions (diamondBase width height)

/-- Modelled from the spec: `GeometryGenerator::CreateGrid`
(GeometryGenerator.h line 130; body not in the repository).  Spec §4.7:
m rows × n columns of vertices in the xz-plane centered at the origin,
texture coordinates tiling linearly across the grid, two triangles per
interior cell. -/
def CreateGrid (w d : ℚ) (m n : Nat) : MeshData :=
  { Vertices := (List.range m).flatMap (fun i : ℕ =>
      (List.range n).map (fun j : ℕ =>
      ⟨⟨-(w/2) + (j : ℚ) * (w / ((n : ℚ) - 1)), 0,
         d/2 - (i : ℚ) * (d / ((m : ℚ) - 1))⟩,
       ⟨0, 1, 0⟩, ⟨1, 0, 0⟩,
       ⟨(j : ℚ) * (1 / ((n : ℚ) - 1)), (i : ℚ) * (1 / ((m : ℚ) - 1))⟩⟩)),
    Indices32 := (List.range (m - 1)).flatMap (fun i =>
      (List.range (n - 1)).flatMap (fun j =>
        [i * n + j, i * n + j + 1, (i + 1) * n + j,
         (i + 1) * n + j, i * n + j + 1, (i + 1) * n + j + 1])),
    mIndices16 := [] }

/-- Modelled from the spec: `GeometryGenerator::CreateQuad`
(GeometryGenerator.h line 135; body not in the repository).  Spec §4.8:
four vertices forming one screen-aligned rectangle at the given position,
size and depth; two triangles. -/
def CreateQuad (x y w h depth : ℚ) : MeshData :=
  { Vertices :=
      [⟨⟨x, y - h, depth⟩, ⟨0, 0, -1⟩, ⟨1, 0, 0⟩, ⟨0, 1⟩⟩,
       ⟨⟨x, y, depth⟩, ⟨0, 0, -1⟩, ⟨1, 0, 0⟩, ⟨0, 0⟩⟩,
       ⟨⟨x + w, y, depth⟩, ⟨0, 0, -1⟩, ⟨1, 0, 0⟩, ⟨1, 0⟩⟩,
       ⟨⟨x + w, y - h, depth⟩, ⟨0, 0, -1⟩, ⟨1, 0, 0⟩, ⟨1, 1⟩⟩],
    Indices32 := quadIdx 0,
    mIndices16 := [] }

/-- Total vertex count of the sphere: one north pole, `stackCount - 1`
interior rings of `sliceCount + 1` vertices, one south pole (spec §4.3). -/
def sphereVertexCount (sliceCount stackCount : Nat) : Nat :=
  1 + (stackCount - 1) * (sliceCount + 1) + 1

/-- The north-pole fan: triangles `(0, i+2, i+1)` connecting the pole
(vertex 0) to the first ring (vertices 1 .. sliceCount+1). -/
def sphereTopFan (sliceCount : Nat) : List Nat :=
  (List.range sliceCount).flatMap (fun i => [0, i + 2, i + 1])

/-- Two-triangle-per-quad stitching between adjacent interior rings;
ring `i` starts at vertex `1 + i * (sliceCount + 1)`. -/
def sphereInterior (sliceCount stackCount : Nat) : List Nat :=
  (List.range (stackCount - 2)).flatMap (fun i =>
    (List.range sliceCount).flatMap (fun j =>
      [1 + i * (sliceCount + 1) + j,
       1 + i * (sliceCount + 1) + j + 1,
       1 + (i + 1) * (sliceCount + 1) + j,
       1 + (i + 1) * (sliceCount + 1) + j,
       1 + i * (sliceCount + 1) + j + 1,
       1 + (i + 1) * (sliceCount + 1) + j + 1]))

/-- The south-pole fan: triangles connecting the south pole (last vertex)
to the last interior ring. -/
def sphereBottomFan (sliceCount stackCount : Nat) : List Nat :=
  (List.range sliceCount).flatMap (fun i =>
    [sphereVertexCount sliceCount stackCount - 1,
     sphereVertexCount sliceCount stackCount - 1 - (sliceCount + 1) + i,
     sphereVertexCount sliceCount stackCount - 1 - (sliceCount + 1) + i + 1])

/-- Modelled from the spec: `GeometryGenerator::CreateSphere`
(GeometryGenerator.h line 87; body not in the repository).  Spec §4.3
fixes the vertex layout (pole, rings, pole) and the triangulation (pole
fans and ring stitching); the vertex attributes themselves are
trigonometric functions of radius and the spherical angles, which no
claim depends on, so they are abstracted as the function `vf` from the
vertex's position in generation order.  The triangulation is emitted
unchecked, exactly as described, for every parameter value (spec §7:
invalid tessellation parameters are unchecked). -/
def CreateSphere (vf : Nat → Vertex) (sliceCount stackCount : Nat) : MeshData :=
  { Vertices := (List.range (sphereVertexCount sliceCount stackCount)).map vf,
    Indices32 := sphereTopFan sliceCount ++
      sphereInterior sliceCount stackCount ++
      sphereBottomFan sliceCount stackCount,
    mIndices16 := [] }

/-- Side-surface vertex count of the cylinder: `stackCount + 1` rings of
`sliceCount + 1` vertices (spec §4.5). -/
def cylSideVertexCount (sliceCount stackCount : Nat) : Nat :=
  (stackCount + 1) * (sliceCount + 1)

/-- Two-triangle-per-quad stitching between adjacent cylinder rings. -/
def cylSideIdx (sliceCount stackCount : Nat) : List Nat :=
  (List.range stackCount).flatMap (fun i =>
    (List.range sliceCount).flatMap (fun j =>
      [i * (sliceCount + 1) + j,
       (i + 1) * (sliceCount + 1) + j,
       (i + 1) * (sliceCount + 1) + j + 1,
       i * (sliceCount + 1) + j,
       (i + 1) * (sliceCount + 1) + j + 1,
       i * (sliceCount + 1) + j + 1]))

/-- A cap fan over `sliceCount` rim pairs: the duplicated rim ring starts
at vertex `base`, the cap center is vertex `base + sliceCount + 1`; the
top cap winds one way, the bottom cap the other. -/
def capIdx (base sliceCount : Nat) (top : Bool) : List Nat :=
  (List.range sliceCount).flatMap (fun i =>
    if top then [base + sliceCount + 1, base + i + 1, base + i]
    else [base + sliceCount + 1, base + i, base + i + 1])

/-- Vertices a cap contributes: `sliceCount + 1` duplicated rim vertices
plus one center vertex — but only when that cap's radius is positive
(spec §4.5: "a cap (when its radius > 0) duplicates the rim ring's
vertices ... plus one center vertex"). -/
def capVertexCount (radius : ℚ) (sliceCount : Nat) : Nat :=
  if 0 < radius then sliceCount + 2 else 0

/-- Total cylinder vertex count: side rings, then the top cap block, then
the bottom cap block. -/
def cylVertexCount (bottomRadius topRadius : ℚ) (sliceCount stackCount : Nat) :
    Nat :=
  cylSideVertexCount sliceCount stackCount +
    capVertexCount topRadius sliceCount + capVertexCount bottomRadius sliceCount

/-- The top-cap fan indices, emitted only when the top radius is
positive. -/
def cylTopCapIdx (topRadius : ℚ) (sliceCount stackCount : Nat) : List Nat :=
  if 0 < topRadius then
    capIdx (cylSideVertexCount sliceCount stackCount) sliceCount true
  else []

/-- The bottom-cap fan indices, emitted only when the bottom radius is
positive; its vertex block sits after the top cap's. -/
def cylBottomCapIdx (bottomRadius topRadius : ℚ) (sliceCount stackCount : Nat) :
    List Nat :=
  if 0 < bottomRadius then
    capIdx (cylSideVertexCount sliceCount stackCount +
      capVertexCount topRadius sliceCount) sliceCount false
  else []

/-- Modelled from the spec: `GeometryGenerator::CreateCylinder`
(GeometryGenerator.h line 100; body not in the repository).  Spec §4.5:
ring-stitched side surface plus separate cap fans whose vertices are never
shared with side vertices.  Vertex attributes are trigonometric functions
of the parameters, which no claim depends on, so they are abstracted as
`vf`; the `height` parameter only influences those attributes. -/
def CreateCylinder (vf : Nat → Vertex) (bottomRadius topRadius height : ℚ)
    (sliceCount stackCount : Nat) : MeshData :=
  { Vertices :=
      (List.range (cylVertexCount bottomRadius topRadius sliceCount stackCount)).map vf,
    Indices32 := cylSideIdx sliceCount stackCount ++
      cylTopCapIdx topRadius sliceCount stackCount ++
      cylBottomCapIdx bottomRadius topRadius sliceCount stackCount,
    mIndices16 := [] }

/-- Modelled from the spec: `GeometryGenerator::CreateCone`
(GeometryGenerator.h line 104).  The header comment itself fixes the
model: "pretty much the same code as the cylinder code but it just
doesn't ask you for a top radius and defaults it to zreo [zero]". -/
def CreateCone (vf : Nat → Vertex) (bottomRadius height : ℚ)
    (sliceCount stackCount : Nat) : MeshData :=
  CreateCylinder vf bottomRadius 0 height sliceCount stackCount

/-- The golden-ratio icosahedron X coordinate (0.525731f in the usual
hand-specified table, spec §4.4). -/
def icosaX : ℚ := 525731 / 1000000

/-- The golden-ratio icosahedron Z coordinate (0.850651f). -/
def icosaZ : ℚ := 850651 / 1000000

/-- Modelled from the spec: the 12 hand-specified icosahedron vertices
inscribed in the unit sphere from which `CreateGeosphere` starts (spec
§4.4).  Normals, tangents and texture coordinates are recomputed after
projection from each vertex's spherical angles and are irrelevant to
every claim, so they are left zero here. -/
def icosaVerts : List Vertex :=
  [⟨⟨-icosaX, 0, icosaZ⟩, ⟨0, 0, 0⟩, ⟨0, 0, 0⟩, ⟨0, 0⟩⟩,
   ⟨⟨icosaX, 0, icosaZ⟩, ⟨0, 0, 0⟩, ⟨0, 0, 0⟩, ⟨0, 0⟩⟩,
   ⟨⟨-icosaX, 0, -icosaZ⟩, ⟨0, 0, 0⟩, ⟨0, 0, 0⟩, ⟨0, 0⟩⟩,
   ⟨⟨icosaX, 0, -icosaZ⟩, ⟨0, 0, 0⟩, ⟨0, 0, 0⟩, ⟨0, 0⟩⟩,
   ⟨⟨0, icosaZ, icosaX⟩, ⟨0, 0, 0⟩, ⟨0, 0, 0⟩, ⟨0, 0⟩⟩,
   ⟨⟨0, icosaZ, -icosaX⟩, ⟨0, 0, 0⟩, ⟨0, 0, 0⟩, ⟨0, 0⟩⟩,
   ⟨⟨0, -icosaZ, icosaX⟩, ⟨0, 0, 0⟩, ⟨0, 0, 0⟩, ⟨0, 0⟩⟩,
   ⟨⟨0, -icosaZ, -icosaX⟩, ⟨0, 0, 0⟩, ⟨0, 0, 0⟩, ⟨0, 0⟩⟩,
   ⟨⟨icosaZ, icosaX, 0⟩, ⟨0, 0, 0⟩, ⟨0, 0, 0⟩, ⟨0, 0⟩⟩,
   ⟨⟨-icosaZ, icosaX, 0⟩, ⟨0, 0, 0⟩, ⟨0, 0, 0⟩, ⟨0, 0⟩⟩,
   ⟨⟨icosaZ, -icosaX, 0⟩, ⟨0, 0, 0⟩, ⟨0, 0, 0⟩, ⟨0, 0⟩⟩,
   ⟨⟨-icosaZ, -icosaX, 0⟩, ⟨0, 0, 0⟩, ⟨0, 0, 0⟩, ⟨0, 0⟩⟩]

/-- The 20 hand-specified icosahedron faces. -/
def icosaIdx : List Nat :=
  [1, 4, 0, 4, 9, 0, 4, 5, 9, 8, 5, 4, 1, 8, 4,
   1, 10, 8, 10, 3, 8, 8, 3, 5, 3, 2, 5, 3, 7, 2,
   3, 10, 7, 10, 6, 7, 6, 11, 7, 6, 0, 11, 6, 1, 0,
   10, 1, 6, 11, 0, 9, 2, 11, 9, 5, 2, 9, 11, 2, 7]

/-- The icosahedron mesh `CreateGeosphere` starts from. -/
def icosaBase : MeshData :=
  { Vertices := icosaVerts, Indices32 := icosaIdx, mIndices16 := [] }

/-- Modelled from the spec: `GeometryGenerator::CreateGeosphere`
(GeometryGenerator.h line 93; body not in the repository) up to but not
including the final projection.  Spec §4.4: subdivide the icosahedron
`numSubdivisions` times (clamped to 5), then re-project every vertex onto
the sphere of the requested radius by normalizing its direction from the
origin and scaling by the radius.  The projection changes only vertex
attributes, never counts or indices; its normalize-and-scale positions are
irrational, so they appear explicitly in the C8 theorem statement rather
than in this executable definition. -/
def geospherePre (numSubdivisions : Nat) : MeshData :=
  Subdivide^[min numSubdivisions 5] icosaBase

/-- Squared distance of a vertex's position from the origin. -/
def posNormSq (v : Vertex) : ℚ :=
  normSq3 v.Position

/-- The parameter list of each public builder exactly as declared in
GeometryGenerator.h lines 81-135 (this is repository source, not spec
modelling). -/
def builderParams : List (String × List String) :=
  [("CreateBox", ["width", "height", "depth", "numSubdivisions"]),
   ("CreateSphere", ["radius", "sliceCount", "stackCount"]),
   ("CreateGeosphere", ["radius", "numSubdivisions"]),
   ("CreateCylinder",
     ["bottomRadius", "topRadius", "height", "sliceCount", "stackCount"]),
   ("CreateCone", ["bottomRadius", "height", "siceCount", "stackCount"]),
   ("CreateWedge", ["height", "width", "depth", "numSubdivisions"]),
   ("CreatePyramid", ["bottomSide", "topSide", "height"]),
   ("CreateTriangularPrism", ["height", "width", "depth", "numSubdivisions"]),
   ("CreateDiamond", ["width", "height", "numSubdivisions"]),
   ("CreateGrid", ["width", "depth", "m", "n"]),
   ("CreateQuad", ["x", "y", "w", "h", "depth"])]

/-- Whether the named builder declares a `numSubdivisions` parameter in
the header. -/
def acceptsSubdivisionCount (nm : String) : Bool :=
  (builderParams.filter (fun p => p.1 == nm)).any
    (fun p => p.2.contains "numSubdivisions")

/-- C4 counterexample: not every one of CreateWedge, CreatePyramid,
CreateTriangularPrism, CreateDiamond accepts a subdivision-count
parameter — `CreatePyramid(float bottomSide, float topSide, float height)`
(GeometryGenerator.h line 113) has none. -/
theorem not_all_four_builders_accept_subdivisions :
    (["CreateWedge", "CreatePyramid", "CreateTriangularPrism",
      "CreateDiamond"].all acceptsSubdivisionCount) = false := by
  rfl

/-- C4 (amended): CreateWedge, CreateTriangularPrism and CreateDiamond
accept a subdivision-count parameter and apply it through the Subdivision
Engine exactly as CreateBox does (`Subdivide` iterated, clamped to the
same maximum), but CreatePyramid declares no subdivision parameter — it
takes only `bottomSide`, `topSide`, `height`. -/
theorem wedge_prism_diamond_subdivide_like_box :
    acceptsSubdivisionCount "CreateWedge" = true ∧
    acceptsSubdivisionCount "CreateTriangularPrism" = true ∧
    acceptsSubdivisionCount "CreateDiamond" = true ∧
    acceptsSubdivisionCount "CreateBox" = true ∧
    acceptsSubdivisionCount "CreatePyramid" = false ∧
    (∀ w h d n, CreateBox w h d n = applySubdivisions n (boxBase w h d)) ∧
    (∀ h w d n, CreateWedge h w d n = applySubdivisions n (wedgeBase h w d)) ∧
    (∀ h w d n,
      CreateTriangularPrism h w d n = applySubdivisions n (prismBase h w d)) ∧
    (∀ w h n, CreateDiamond w h n = applySubdivisions n (diamondBase w h)) := by
  exact ⟨rfl, rfl, rfl, rfl, rfl, fun _ _ _ _ => rfl, fun _ _ _ _ => rfl,
    fun _ _ _ _ => rfl, fun _ _ _ => rfl⟩

/-- C7: with zero subdivisions the box is exactly 6 independent faces:
24 vertices and 12 triangles; a 2×2 grid is exactly 4 vertices and
2 triangles — for all positive dimensions. -/
theorem box_zero_subdivisions_and_grid_2x2_counts
    (w h d : ℚ) (hw : 0 < w) (hh : 0 < h) (hd : 0 < d) :
    (CreateBox w h d 0).Vertices.length = 24 ∧
    numTris (CreateBox w h d 0) = 12 ∧
    (CreateGrid w d 2 2).Vertices.length = 4 ∧
    numTris (CreateGrid w d 2 2) = 2 := by
  have hb : (CreateBox w h d 0).Indices32 = boxIdx := rfl
  have hg : (CreateGrid w d 2 2).Indices32 = [0, 1, 2, 2, 1, 3] := rfl
  refine ⟨rfl, ?_, rfl, ?_⟩
  · rw [numTris, hb]; decide
  · rw [numTris, hg]; decide

/-- Witness for C7 at unit dimensions. -/
theorem box_zero_subdivisions_and_grid_2x2_counts_witness :
    (CreateBox 1 1 1 0).Vertices.length = 24 ∧
    numTris (CreateBox 1 1 1 0) = 12 ∧
    (CreateGrid 1 1 2 2).Vertices.length = 4 ∧
    numTris (CreateGrid 1 1 2 2) = 2 :=
  box_zero_subdivisions_and_grid_2x2_counts 1 1 1 (by norm_num) (by norm_num)
    (by norm_num)

/-- C6: the cone is the cylinder specialization with top radius 0 — it is
definitionally the same mesh, so its side-surface vertex and triangle
counts agree with `CreateCylinder(r, 0, h, s, st)`; its top-cap triangle
count is zero, and in general a cap fan is emitted exactly when that
cap's radius is positive (and the slice count is nonzero). -/
theorem cone_is_cylinder_with_zero_top_radius
    (vf : Nat → Vertex) (r h : ℚ) (s st : Nat) :
    CreateCone vf r h s st = CreateCylinder vf r 0 h s st ∧
    (cylTopCapIdx 0 s st).length / 3 = 0 ∧
    (∀ tr : ℚ, (cylTopCapIdx tr s st).length / 3 = if 0 < tr then s else 0) ∧
    (∀ br tr : ℚ,
      (cylBottomCapIdx br tr s st).length / 3 = if 0 < br then s else 0) := by
  have hcap : ∀ base : Nat, ∀ top : Bool, (capIdx base s top).length = s * 3 := by
    intro base top
    rw [capIdx, length_flatMap_range _ 3 ?_ s]
    intro i
    cases top <;> rfl
  refine ⟨rfl, ?_, ?_, ?_⟩
  · simp [cylTopCapIdx]
  · intro tr
    by_cases htr : 0 < tr
    · simp [cylTopCapIdx, htr, hcap]
    · simp [cylTopCapIdx, htr]
  · intro br tr
    by_cases hbr : 0 < br
    · simp [cylBottomCapIdx, hbr, hcap]
    · simp [cylBottomCapIdx, hbr]

/-- Spec §3 invariant (a) / §8 property 1: every stored wide index names
an existing vertex. -/
def validIndices (m : MeshData) : Prop :=
  ∀ i ∈ m.Indices32, i < m.Vertices.length

theorem validIndices_Subdivide (m : MeshData) (h : validIndices m) :
    validIndices (Subdivide m) := by
  intro i hi
  have hlen : (Subdivide m).Vertices.length =
      m.Vertices.length + 3 * numTris m := by
    rw [subdivide_vertices_eq, List.length_append, midsOf_length]
  rw [hlen]
  have hnt : numTris m = m.Indices32.length / 3 := rfl
  simp only [Subdivide, List.mem_flatMap, List.mem_range] at hi
  obtain ⟨t, ht, hblock⟩ := hi
  have hcorner : ∀ j, j < m.Indices32.length →
      idxAt m j < m.Vertices.length := by
    intro j hj
    apply h
    rw [idxAt, List.getD_eq_getElem _ _ hj]
    exact List.getElem_mem _
  have h0 := hcorner (3 * t) (by omega)
  have h1 := hcorner (3 * t + 1) (by omega)
  have h2 := hcorner (3 * t + 2) (by omega)
  simp only [subIdxBlock, List.mem_cons, List.not_mem_nil, or_false] at hblock
  rcases hblock with rfl | rfl | rfl | rfl | rfl | rfl | rfl | rfl | rfl | rfl | rfl | rfl <;>
    omega

theorem validIndices_iterate (k : Nat) :
    ∀ m, validIndices m → validIndices (Subdivide^[k] m) := by
  induction k with
  | zero => intro m h; simpa using h
  | succ k ih =>
    intro m h
    rw [Function.iterate_succ_apply]
    exact ih _ (validIndices_Subdivide m h)

theorem boxBase_valid (w h d : ℚ) : validIndices (boxBase w h d) := by
  have hall : ∀ j ∈ boxIdx, j < 24 := by decide
  intro i hi
  exact hall i hi

theorem wedgeBase_valid (h w d : ℚ) : validIndices (wedgeBase h w d) := by
  have hall : ∀ j ∈ wedgeIdx, j < 18 := by decide
  intro i hi
  exact hall i hi

theorem prismBase_valid (h w d : ℚ) : validIndices (prismBase h w d) := by
  have hall : ∀ j ∈ wedgeIdx, j < 18 := by decide
  intro i hi
  exact hall i hi

theorem diamondBase_valid (w h : ℚ) : validIndices (diamondBase w h) := by
  have hall : ∀ j ∈ diamondIdx, j < 24 := by decide
  intro i hi
  exact hall i hi

theorem pyramid_valid (b t h : ℚ) : validIndices (CreatePyramid b t h) := by
  rw [CreatePyramid]
  by_cases ht : t = 0
  · rw [if_pos ht]
    have hall : ∀ j ∈ pyramidApexIdx, j < 16 := by decide
    intro i hi
    exact hall i hi
  · rw [if_neg ht]
    have hall : ∀ j ∈ boxIdx, j < 24 := by decide
    intro i hi
    exact hall i hi

theorem quad_valid (x y w h depth : ℚ) : validIndices (CreateQuad x y w h depth) := by
  have hall : ∀ j ∈ quadIdx 0, j < 4 := by decide
  intro i hi
  exact hall i hi

theorem grid_valid (w d : ℚ) (m n : Nat) : validIndices (CreateGrid w d m n) := by
  intro i hi
  have hvlen : (CreateGrid w d m n).Vertices.length = m * n := by
    exact length_flatMap_range
      (fun i : ℕ => (List.range n).map (fun j : ℕ =>
        (⟨⟨-(w/2) + (j : ℚ) * (w / ((n : ℚ) - 1)), 0,
           d/2 - (i : ℚ) * (d / ((m : ℚ) - 1))⟩,
         ⟨0, 1, 0⟩, ⟨1, 0, 0⟩,
         ⟨(j : ℚ) * (1 / ((n : ℚ) - 1)), (i : ℚ) * (1 / ((m : ℚ) - 1))⟩⟩ : Vertex)))
      n (fun i => by rw [List.length_map, List.length_range]) m
  rw [hvlen]
  simp only [CreateGrid, List.mem_flatMap, List.mem_range] at hi
  obtain ⟨a, ha, b, hb, hc⟩ := hi
  have hm2 : 2 ≤ m := by omega
  have hmm : m * n = (m - 1) * n + n := by
    have h1 : m - 1 + 1 = m := by omega
    conv_lhs => rw [← h1]
    rw [Nat.succ_mul]
  have hu1 : (a + 1) * n ≤ (m - 1) * n := Nat.mul_le_mul_right n (by omega)
  have hu2 : a * n ≤ (m - 1) * n := Nat.mul_le_mul_right n (by omega)
  simp only [List.mem_cons, List.not_mem_nil, or_false] at hc
  rcases hc with rfl | rfl | rfl | rfl | rfl | rfl <;> omega

theorem sphere_valid (vf : Nat → Vertex) (sliceCount stackCount : Nat)
    (hst : 2 ≤ stackCount) :
    validIndices (CreateSphere vf sliceCount stackCount) := by
  intro i hi
  have hvlen : (CreateSphere vf sliceCount stackCount).Vertices.length =
      sphereVertexCount sliceCount stackCount := by
    simp [CreateSphere]
  rw [hvlen]
  have hc : sphereVertexCount sliceCount stackCount =
      (stackCount - 1) * (sliceCount + 1) + 2 := by
    rw [sphereVertexCount]; omega
  have hR : sliceCount + 1 ≤ (stackCount - 1) * (sliceCount + 1) :=
    Nat.le_mul_of_pos_left (sliceCount + 1) (by omega)
  simp only [CreateSphere, List.mem_append] at hi
  rcases hi with (hi | hi) | hi
  · simp only [sphereTopFan, List.mem_flatMap, List.mem_range,
      List.mem_cons, List.not_mem_nil, or_false] at hi
    obtain ⟨t, ht, rfl | rfl | rfl⟩ := hi <;> omega
  · simp only [sphereInterior, List.mem_flatMap, List.mem_range,
      List.mem_cons, List.not_mem_nil, or_false] at hi
    obtain ⟨t, ht, j, hj, hc'⟩ := hi
    have hs1 : (stackCount - 1) * (sliceCount + 1) =
        (stackCount - 2) * (sliceCount + 1) + (sliceCount + 1) := by
      have h1 : stackCount - 2 + 1 = stackCount - 1 := by omega
      conv_lhs => rw [← h1]
      rw [Nat.succ_mul]
    have hu1 : (t + 1) * (sliceCount + 1) ≤ (stackCount - 2) * (sliceCount + 1) :=
      Nat.mul_le_mul_right (sliceCount + 1) (by omega)
    have hu2 : t * (sliceCount + 1) ≤ (stackCount - 2) * (sliceCount + 1) :=
      Nat.mul_le_mul_right (sliceCount + 1) (by omega)
    rcases hc' with rfl | rfl | rfl | rfl | rfl | rfl <;> omega
  · simp only [sphereBottomFan, List.mem_flatMap, List.mem_range,
      List.mem_cons, List.not_mem_nil, or_false] at hi
    obtain ⟨t, ht, rfl | rfl | rfl⟩ := hi <;> omega

theorem cylinder_valid (vf : Nat → Vertex) (br tr h : ℚ)
    (sliceCount stackCount : Nat) :
    validIndices (CreateCylinder vf br tr h sliceCount stackCount) := by
  intro i hi
  have hvlen : (CreateCylinder vf br tr h sliceCount stackCount).Vertices.length =
      cylVertexCount br tr sliceCount stackCount := by
    simp [CreateCylinder]
  rw [hvlen]
  have hcnt : cylVertexCount br tr sliceCount stackCount =
      cylSideVertexCount sliceCount stackCount +
        capVertexCount tr sliceCount + capVertexCount br sliceCount := rfl
  have hside : cylSideVertexCount sliceCount stackCount =
      stackCount * (sliceCount + 1) + (sliceCount + 1) := by
    rw [cylSideVertexCount, Nat.succ_mul]
  simp only [CreateCylinder, List.mem_append] at hi
  rcases hi with (hi | hi) | hi
  · simp only [cylSideIdx, List.mem_flatMap, List.mem_range,
      List.mem_cons, List.not_mem_nil, or_false] at hi
    obtain ⟨t, ht, j, hj, hc'⟩ := hi
    have hu1 : (t + 1) * (sliceCount + 1) ≤ stackCount * (sliceCount + 1) :=
      Nat.mul_le_mul_right (sliceCount + 1) (by omega)
    have hu2 : t * (sliceCount + 1) ≤ stackCount * (sliceCount + 1) :=
      Nat.mul_le_mul_right (sliceCount + 1) (by omega)
    rcases hc' with rfl | rfl | rfl | rfl | rfl | rfl <;> omega
  · rw [cylTopCapIdx] at hi
    by_cases htr : (0 : ℚ) < tr
    · rw [if_pos htr] at hi
      have hcap : capVertexCount tr sliceCount = sliceCount + 2 := by
        rw [capVertexCount, if_pos htr]
      simp only [capIdx, if_true, List.mem_flatMap, List.mem_range,
        List.mem_cons, List.not_mem_nil, or_false] at hi
      obtain ⟨t, ht, rfl | rfl | rfl⟩ := hi <;> omega
    · rw [if_neg htr] at hi
      simp at hi
  · rw [cylBottomCapIdx] at hi
    by_cases hbr : (0 : ℚ) < br
    · rw [if_pos hbr] at hi
      have hcap : capVertexCount br sliceCount = sliceCount + 2 := by
        rw [capVertexCount, if_pos hbr]
      simp only [capIdx, Bool.false_eq_true, if_false, List.mem_flatMap,
        List.mem_range, List.mem_cons, List.not_mem_nil, or_false] at hi
      obtain ⟨t, ht, rfl | rfl | rfl⟩ := hi <;> omega
    · rw [if_neg hbr] at hi
      simp at hi

theorem icosaBase_valid : validIndices icosaBase := by
  have hall : ∀ j ∈ icosaIdx, j < 12 := by decide
  intro i hi
  exact hall i hi

/-- C5 counterexample: at `stackCount = 1` (below the spec's documented
minimum of 2, a regime §7 declares unchecked) the sphere's pole fans
reference ring vertices that do not exist: `CreateSphere` with 3 slices
and 1 stack has 2 vertices but emits index 4. -/
theorem sphere_indices_out_of_range_at_stack_one :
    ¬ validIndices (CreateSphere (fun _ => defaultVertex) 3 1) := by
  intro h
  have h4 : (4 : Nat) ∈ (CreateSphere (fun _ => defaultVertex) 3 1).Indices32 := by
    decide
  have := h 4 h4
  have hlen : (CreateSphere (fun _ => defaultVertex) 3 1).Vertices.length = 2 := by
    decide
  omega

/-- C5 (amended): every builder keeps every emitted 32-bit index strictly
below its vertex count, for all parameter values — except that the sphere
requires its documented minimum `stackCount ≥ 2` (spec §6; below it the
unchecked pole fans index past the vertex sequence, see the
counterexample).  The geosphere is covered via `geospherePre` since the
final projection touches only vertex attributes, never counts or
indices. -/
theorem builders_emit_only_in_range_indices :
    (∀ w h d : ℚ, ∀ n : Nat, validIndices (CreateBox w h d n)) ∧
    (∀ vf : Nat → Vertex, ∀ s st : Nat, 2 ≤ st →
      validIndices (CreateSphere vf s st)) ∧
    (∀ k : Nat, validIndices (geospherePre k)) ∧
    (∀ vf : Nat → Vertex, ∀ br tr h : ℚ, ∀ s st : Nat,
      validIndices (CreateCylinder vf br tr h s st)) ∧
    (∀ vf : Nat → Vertex, ∀ br h : ℚ, ∀ s st : Nat,
      validIndices (CreateCone vf br h s st)) ∧
    (∀ h w d : ℚ, ∀ n : Nat, validIndices (CreateWedge h w d n)) ∧
    (∀ b t h : ℚ, validIndices (CreatePyramid b t h)) ∧
    (∀ h w d : ℚ, ∀ n : Nat, validIndices (CreateTriangularPrism h w d n)) ∧
    (∀ w h : ℚ, ∀ n : Nat, validIndices (CreateDiamond w h n)) ∧
    (∀ w d : ℚ, ∀ m n : Nat, validIndices (CreateGrid w d m n)) ∧
    (∀ x y w h depth : ℚ, validIndices (CreateQuad x y w h depth)) := by
  refine ⟨?_, sphere_valid, ?_, cylinder_valid,
    fun vf br h s st => cylinder_valid vf br 0 h s st, ?_, pyramid_valid,
    ?_, ?_, grid_valid, quad_valid⟩
  · intro w h d n
    exact validIndices_iterate _ _ (boxBase_valid w h d)
  · intro k
    exact validIndices_iterate _ _ icosaBase_valid
  · intro h w d n
    exact validIndices_iterate _ _ (wedgeBase_valid h w d)
  · intro h w d n
    exact validIndices_iterate _ _ (prismBase_valid h w d)
  · intro w h n
    exact validIndices_iterate _ _ (diamondBase_valid w h)

/-- Witness for C5 (amended) at concrete parameters, including the
sphere's `stackCount ≥ 2` hypothesis at `stackCount = 2`. -/
theorem builders_emit_only_in_range_indices_witness :
    validIndices (CreateBox 1 1 1 1) ∧
    validIndices (CreateSphere (fun _ => defaultVertex) 3 2) ∧
    validIndices (CreateGrid 1 1 3 3) :=
  ⟨builders_emit_only_in_range_indices.1 1 1 1 1,
   builders_emit_only_in_range_indices.2.1 (fun _ => defaultVertex) 3 2
     (by norm_num),
   builders_emit_only_in_range_indices.2.2.2.2.2.2.2.2.2.1 1 1 3 3⟩

/-- Dot product of a direction with a point. -/
def dot3 (n p : Float3) : ℚ :=
  n.x * p.x + n.y * p.y + n.z * p.z

/-- The vertex lies strictly inside the open half-space
`{ p | 0 < ⟪n, p⟫ }` through the origin. -/
def InHalf (n : Float3) (v : Vertex) : Prop :=
  0 < dot3 n v.Position

/-- The three corners of triangle `t` lie strictly inside one common open
half-space through the origin — true of every icosahedron face and stable
under midpoint subdivision, and it keeps every vertex away from the
origin. -/
def GoodTri (m : MeshData) (t : Nat) : Prop :=
  ∃ n : Float3,
    InHalf n (corner m t 0) ∧ InHalf n (corner m t 1) ∧ InHalf n (corner m t 2)

/-- The subdivision invariant behind the geosphere's projection: every
vertex position is away from the origin, and every triangle's corners
share an open half-space through the origin. -/
def GoodMesh (m : MeshData) : Prop :=
  (∀ v ∈ m.Vertices, v.Position ≠ ⟨0, 0, 0⟩) ∧
  (∀ t, t < numTris m → GoodTri m t)

theorem inHalf_ne_zero (n : Float3) (v : Vertex) (h : InHalf n v) :
    v.Position ≠ ⟨0, 0, 0⟩ := by
  intro hz
  rw [InHalf, hz] at h
  simp [dot3] at h

theorem inHalf_midPoint (n : Float3) (a b : Vertex) (ha : InHalf n a)
    (hb : InHalf n b) : InHalf n (MidPoint a b) := by
  rw [InHalf] at ha hb ⊢
  have hmp : dot3 n (MidPoint a b).Position =
      (dot3 n a.Position + dot3 n b.Position) / 2 := by
    simp only [MidPoint, mid3, dot3]
    ring
  rw [hmp]
  linarith

theorem idx_lt_of_inHalf (m : MeshData) (j : Nat) (n : Float3)
    (h : InHalf n (m.Vertices.getD (idxAt m j) defaultVertex)) :
    idxAt m j < m.Vertices.length := by
  by_contra hge
  rw [List.getD_eq_default _ _ (by omega)] at h
  exact inHalf_ne_zero n defaultVertex h rfl

theorem idxAt_Subdivide (m : MeshData) (t : Nat) (ht : t < numTris m)
    (R : Nat) (hR : R < 12) :
    idxAt (Subdivide m) (t * 12 + R) =
      (subIdxBlock m.Vertices.length t (idxAt m (3 * t)) (idxAt m (3 * t + 1))
        (idxAt m (3 * t + 2))).getD R 0 := by
  exact getD_flatMap_range
    (fun t => subIdxBlock m.Vertices.length t (idxAt m (3 * t))
      (idxAt m (3 * t + 1)) (idxAt m (3 * t + 2)))
    12 (fun _ => rfl) R hR 0 (numTris m) t ht

theorem subIdxBlock_g0 (V t i0 i1 i2 : Nat) :
    (subIdxBlock V t i0 i1 i2).getD 0 0 = i0 := rfl

theorem subIdxBlock_g1 (V t i0 i1 i2 : Nat) :
    (subIdxBlock V t i0 i1 i2).getD 1 0 = V + 3 * t := rfl

theorem subIdxBlock_g2 (V t i0 i1 i2 : Nat) :
    (subIdxBlock V t i0 i1 i2).getD 2 0 = V + 3 * t + 2 := rfl

theorem subIdxBlock_g3 (V t i0 i1 i2 : Nat) :
    (subIdxBlock V t i0 i1 i2).getD 3 0 = V + 3 * t := rfl

theorem subIdxBlock_g4 (V t i0 i1 i2 : Nat) :
    (subIdxBlock V t i0 i1 i2).getD 4 0 = i1 := rfl

theorem subIdxBlock_g5 (V t i0 i1 i2 : Nat) :
    (subIdxBlock V t i0 i1 i2).getD 5 0 = V + 3 * t + 1 := rfl

theorem subIdxBlock_g6 (V t i0 i1 i2 : Nat) :
    (subIdxBlock V t i0 i1 i2).getD 6 0 = V + 3 * t + 2 := rfl

theorem subIdxBlock_g7 (V t i0 i1 i2 : Nat) :
    (subIdxBlock V t i0 i1 i2).getD 7 0 = V + 3 * t + 1 := rfl

theorem subIdxBlock_g8 (V t i0 i1 i2 : Nat) :
    (subIdxBlock V t i0 i1 i2).getD 8 0 = i2 := rfl

theorem subIdxBlock_g9 (V t i0 i1 i2 : Nat) :
    (subIdxBlock V t i0 i1 i2).getD 9 0 = V + 3 * t := rfl

theorem subIdxBlock_g10 (V t i0 i1 i2 : Nat) :
    (subIdxBlock V t i0 i1 i2).getD 10 0 = V + 3 * t + 1 := rfl

theorem subIdxBlock_g11 (V t i0 i1 i2 : Nat) :
    (subIdxBlock V t i0 i1 i2).getD 11 0 = V + 3 * t + 2 := rfl

theorem corner_Subdivide (m : MeshData) (t s k R : Nat) (ht : t < numTris m)
    (hR : R < 12) (he : 3 * (4 * t + s) + k = t * 12 + R) :
    corner (Subdivide m) (4 * t + s) k =
      (Subdivide m).Vertices.getD
        ((subIdxBlock m.Vertices.length t (idxAt m (3 * t)) (idxAt m (3 * t + 1))
          (idxAt m (3 * t + 2))).getD R 0) defaultVertex := by
  rw [corner, he, idxAt_Subdivide m t ht R hR]

theorem goodMesh_Subdivide (m : MeshData) (hg : GoodMesh m) :
    GoodMesh (Subdivide m) := by
  obtain ⟨hv, htri⟩ := hg
  constructor
  · intro v hv'
    rw [subdivide_vertices_eq] at hv'
    rcases List.mem_append.mp hv' with h | h
    · exact hv v h
    · rw [midsOf] at h
      simp only [List.mem_flatMap, List.mem_range] at h
      obtain ⟨t, ht, hmem⟩ := h
      obtain ⟨n, h0, h1, h2⟩ := htri t ht
      simp only [triMids, List.mem_cons, List.not_mem_nil, or_false] at hmem
      rcases hmem with rfl | rfl | rfl
      · exact inHalf_ne_zero n _ (inHalf_midPoint n _ _ h0 h1)
      · exact inHalf_ne_zero n _ (inHalf_midPoint n _ _ h1 h2)
      · exact inHalf_ne_zero n _ (inHalf_midPoint n _ _ h2 h0)
  · intro t' ht'
    have h4 : numTris (Subdivide m) = 4 * numTris m := by
      have h12 := subdivide_indices_length m
      rw [numTris, h12]
      omega
    rw [h4] at ht'
    obtain ⟨t, s, hs, rfl⟩ : ∃ t s, s < 4 ∧ t' = 4 * t + s :=
      ⟨t' / 4, t' % 4, by omega, by omega⟩
    have ht : t < numTris m := by omega
    obtain ⟨n, h0, h1, h2⟩ := htri t ht
    have hi0 : idxAt m (3 * t) < m.Vertices.length := idx_lt_of_inHalf m _ n h0
    have hi1 : idxAt m (3 * t + 1) < m.Vertices.length := idx_lt_of_inHalf m _ n h1
    have hi2 : idxAt m (3 * t + 2) < m.Vertices.length := idx_lt_of_inHalf m _ n h2
    have hV : ∀ j, j < m.Vertices.length →
        (Subdivide m).Vertices.getD j defaultVertex =
          m.Vertices.getD j defaultVertex := by
      intro j hj
      rw [subdivide_vertices_eq]
      exact List.getD_append _ _ _ _ hj
    have hMgen : ∀ c, c < 3 → (midsOf m).getD (t * 3 + c) defaultVertex =
        (triMids m t).getD c defaultVertex :=
      fun c hc =>
        getD_flatMap_range (triMids m) 3 (fun _ => rfl) c hc defaultVertex
          (numTris m) t ht
    have hM0 : (Subdivide m).Vertices.getD (m.Vertices.length + 3 * t)
        defaultVertex = MidPoint (corner m t 0) (corner m t 1) := by
      rw [subdivide_vertices_eq, List.getD_append_right _ _ _ _ (by omega)]
      have e1 : m.Vertices.length + 3 * t - m.Vertices.length = t * 3 + 0 := by
        omega
      rw [e1, hMgen 0 (by omega)]
      rfl
    have hM1 : (Subdivide m).Vertices.getD (m.Vertices.length + 3 * t + 1)
        defaultVertex = MidPoint (corner m t 1) (corner m t 2) := by
      rw [subdivide_vertices_eq, List.getD_append_right _ _ _ _ (by omega)]
      have e1 : m.Vertices.length + 3 * t + 1 - m.Vertices.length = t * 3 + 1 := by
        omega
      rw [e1, hMgen 1 (by omega)]
      rfl
    have hM2 : (Subdivide m).Vertices.getD (m.Vertices.length + 3 * t + 2)
        defaultVertex = MidPoint (corner m t 2) (corner m t 0) := by
      rw [subdivide_vertices_eq, List.getD_append_right _ _ _ _ (by omega)]
      have e1 : m.Vertices.length + 3 * t + 2 - m.Vertices.length = t * 3 + 2 := by
        omega
      rw [e1, hMgen 2 (by omega)]
      rfl
    have hOld : ∀ k, (hk : k < 3) →
        m.Vertices.getD (idxAt m (3 * t + k)) defaultVertex = corner m t k :=
      fun k hk => rfl
    interval_cases s
    · refine ⟨n, ?_, ?_, ?_⟩
      · rw [corner_Subdivide m t 0 0 0 ht (by omega) (by ring),
          subIdxBlock_g0, hV _ hi0]
        exact h0
      · rw [corner_Subdivide m t 0 1 1 ht (by omega) (by ring),
          subIdxBlock_g1, hM0]
        exact inHalf_midPoint n _ _ h0 h1
      · rw [corner_Subdivide m t 0 2 2 ht (by omega) (by ring),
          subIdxBlock_g2, hM2]
        exact inHalf_midPoint n _ _ h2 h0
    · refine ⟨n, ?_, ?_, ?_⟩
      · rw [corner_Subdivide m t 1 0 3 ht (by omega) (by ring),
          subIdxBlock_g3, hM0]
        exact inHalf_midPoint n _ _ h0 h1
      · rw [corner_Subdivide m t 1 1 4 ht (by omega) (by ring),
          subIdxBlock_g4, hV _ hi1]
        exact h1
      · rw [corner_Subdivide m t 1 2 5 ht (by omega) (by ring),
          subIdxBlock_g5, hM1]
        exact inHalf_midPoint n _ _ h1 h2
    · refine ⟨n, ?_, ?_, ?_⟩
      · rw [corner_Subdivide m t 2 0 6 ht (by omega) (by ring),
          subIdxBlock_g6, hM2]
        exact inHalf_midPoint n _ _ h2 h0
      · rw [corner_Subdivide m t 2 1 7 ht (by omega) (by ring),
          subIdxBlock_g7, hM1]
        exact inHalf_midPoint n _ _ h1 h2
      · rw [corner_Subdivide m t 2 2 8 ht (by omega) (by ring),
          subIdxBlock_g8, hV _ hi2]
        exact h2
    · refine ⟨n, ?_, ?_, ?_⟩
      · rw [corner_Subdivide m t 3 0 9 ht (by omega) (by ring),
          subIdxBlock_g9, hM0]
        exact inHalf_midPoint n _ _ h0 h1
      · rw [corner_Subdivide m t 3 1 10 ht (by omega) (by ring),
          subIdxBlock_g10, hM1]
        exact inHalf_midPoint n _ _ h1 h2
      · rw [corner_Subdivide m t 3 2 11 ht (by omega) (by ring),
          subIdxBlock_g11, hM2]
        exact inHalf_midPoint n _ _ h2 h0

theorem goodMesh_iterate (k : Nat) :
    ∀ m, GoodMesh m → GoodMesh (Subdivide^[k] m) := by
  induction k with
  | zero => intro m h; simpa using h
  | succ k ih =>
    intro m h
    rw [Function.iterate_succ_apply]
    exact ih _ (goodMesh_Subdivide m h)

/-- The candidate common half-space direction for a triangle: the sum of
its three corner positions. -/
def triNormal (m : MeshData) (t : Nat) : Float3 :=
  ⟨(corner m t 0).Position.x + (corner m t 1).Position.x + (corner m t 2).Position.x,
   (corner m t 0).Position.y + (corner m t 1).Position.y + (corner m t 2).Position.y,
   (corner m t 0).Position.z + (corner m t 1).Position.z + (corner m t 2).Position.z⟩

theorem goodTri_self (m : MeshData) (t : Nat)
    (h0 : 0 < dot3 (triNormal m t) (corner m t 0).Position)
    (h1 : 0 < dot3 (triNormal m t) (corner m t 1).Position)
    (h2 : 0 < dot3 (triNormal m t) (corner m t 2).Position) : GoodTri m t :=
  ⟨triNormal m t, h0, h1, h2⟩

theorem icosa_goodMesh : GoodMesh icosaBase := by
  constructor
  · intro v hv
    fin_cases hv <;> norm_num [icosaX, icosaZ, Float3.mk.injEq]
  · intro t ht
    have h20 : numTris icosaBase = 20 := by decide
    rw [h20] at ht
    interval_cases t
    · have e0 : (corner icosaBase 0 0).Position = ⟨icosaX, 0, icosaZ⟩ := rfl
      have e1 : (corner icosaBase 0 1).Position = ⟨0, icosaZ, icosaX⟩ := rfl
      have e2 : (corner icosaBase 0 2).Position = ⟨-icosaX, 0, icosaZ⟩ := rfl
      exact goodTri_self _ _
        (by simp only [triNormal]; rw [e0, e1, e2]; norm_num [dot3, icosaX, icosaZ])
        (by simp only [triNormal]; rw [e0, e1, e2]; norm_num [dot3, icosaX, icosaZ])
        (by simp only [triNormal]; rw [e0, e1, e2]; norm_num [dot3, icosaX, icosaZ])
    · have e0 : (corner icosaBase 1 0).Position = ⟨0, icosaZ, icosaX⟩ := rfl
      have e1 : (corner icosaBase 1 1).Position = ⟨-icosaZ, icosaX, 0⟩ := rfl
      have e2 : (corner icosaBase 1 2).Position = ⟨-icosaX, 0, icosaZ⟩ := rfl
      exact goodTri_self _ _
        (by simp only [triNormal]; rw [e0, e1, e2]; norm_num [dot3, icosaX, icosaZ])
        (by simp only [triNormal]; rw [e0, e1, e2]; norm_num [dot3, icosaX, icosaZ])
        (by simp only [triNormal]; rw [e0, e1, e2]; norm_num [dot3, icosaX, icosaZ])
    · have e0 : (corner icosaBase 2 0).Position = ⟨0, icosaZ, icosaX⟩ := rfl
      have e1 : (corner icosaBase 2 1).Position = ⟨0, icosaZ, -icosaX⟩ := rfl
      have e2 : (corner icosaBase 2 2).Position = ⟨-icosaZ, icosaX, 0⟩ := rfl
      exact goodTri_self _ _
        (by simp only [triNormal]; rw [e0, e1, e2]; norm_num [dot3, icosaX, icosaZ])
        (by simp only [triNormal]; rw [e0, e1, e2]; norm_num [dot3, icosaX, icosaZ])
        (by simp only [triNormal]; rw [e0, e1, e2]; norm_num [dot3, icosaX, icosaZ])
    · have e0 : (corner icosaBase 3 0).Position = ⟨icosaZ, icosaX, 0⟩ := rfl
      have e1 : (corner icosaBase 3 1).Position = ⟨0, icosaZ, -icosaX⟩ := rfl
      have e2 : (corner icosaBase 3 2).Position = ⟨0, icosaZ, icosaX⟩ := rfl
      exact goodTri_self _ _
        (by simp only [triNormal]; rw [e0, e1, e2]; norm_num [dot3, icosaX, icosaZ])
        (by simp only [triNormal]; rw [e0, e1, e2]; norm_num [dot3, icosaX, icosaZ])
        (by simp only [triNormal]; rw [e0, e1, e2]; norm_num [dot3, icosaX, icosaZ])
    · have e0 : (corner icosaBase 4 0).Position = ⟨icosaX, 0, icosaZ⟩ := rfl
      have e1 : (corner icosaBase 4 1).Position = ⟨icosaZ, icosaX, 0⟩ := rfl
      have e2 : (corner icosaBase 4 2).Position = ⟨0, icosaZ, icosaX⟩ := rfl
      exact goodTri_self _ _
        (by simp only [triNormal]; rw [e0, e1, e2]; norm_num [dot3, icosaX, icosaZ])
        (by simp only [triNormal]; rw [e0, e1, e2]; norm_num [dot3, icosaX, icosaZ])
        (by simp only [triNormal]; rw [e0, e1, e2]; norm_num [dot3, icosaX, icosaZ])
    · have e0 : (corner icosaBase 5 0).Position = ⟨icosaX, 0, icosaZ⟩ := rfl
      have e1 : (corner icosaBase 5 1).Position = ⟨icosaZ, -icosaX, 0⟩ := rfl
      have e2 : (corner icosaBase 5 2).Position = ⟨icosaZ, icosaX, 0⟩ := rfl
      exact goodTri_self _ _
        (by simp only [triNormal]; rw [e0, e1, e2]; norm_num [dot3, icosaX, icosaZ])
        (by simp only [triNormal]; rw [e0, e1, e2]; norm_num [dot3, icosaX, icosaZ])
        (by simp only [triNormal]; rw [e0, e1, e2]; norm_num [dot3, icosaX, icosaZ])
    · have e0 : (corner icosaBase 6 0).Position = ⟨icosaZ, -icosaX, 0⟩ := rfl
      have e1 : (corner icosaBase 6 1).Position = ⟨icosaX, 0, -icosaZ⟩ := rfl
      have e2 : (corner icosaBase 6 2).Position = ⟨icosaZ, icosaX, 0⟩ := rfl
      exact goodTri_self _ _
        (by simp only [triNormal]; rw [e0, e1, e2]; norm_num [dot3, icosaX, icosaZ])
        (by simp only [triNormal]; rw [e0, e1, e2]; norm_num [dot3, icosaX, icosaZ])
        (by simp only [triNormal]; rw [e0, e1, e2]; norm_num [dot3, icosaX, icosaZ])
    · have e0 : (corner icosaBase 7 0).Position = ⟨icosaZ, icosaX, 0⟩ := rfl
      have e1 : (corner icosaBase 7 1).Position = ⟨icosaX, 0, -icosaZ⟩ := rfl
      have e2 : (corner icosaBase 7 2).Position = ⟨0, icosaZ, -icosaX⟩ := rfl
      exact goodTri_self _ _
        (by simp only [triNormal]; rw [e0, e1, e2]; norm_num [dot3, icosaX, icosaZ])
        (by simp only [triNormal]; rw [e0, e1, e2]; norm_num [dot3, icosaX, icosaZ])
        (by simp only [triNormal]; rw [e0, e1, e2]; norm_num [dot3, icosaX, icosaZ])
    · have e0 : (corner icosaBase 8 0).Position = ⟨icosaX, 0, -icosaZ⟩ := rfl
      have e1 : (corner icosaBase 8 1).Position = ⟨-icosaX, 0, -icosaZ⟩ := rfl
      have e2 : (corner icosaBase 8 2).Position = ⟨0, icosaZ, -icosaX⟩ := rfl
      exact goodTri_self _ _
        (by simp only [triNormal]; rw [e0, e1, e2]; norm_num [dot3, icosaX, icosaZ])
        (by simp only [triNormal]; rw [e0, e1, e2]; norm_num [dot3, icosaX, icosaZ])
        (by simp only [triNormal]; rw [e0, e1, e2]; norm_num [dot3, icosaX, icosaZ])
    · have e0 : (corner icosaBase 9 0).Position = ⟨icosaX, 0, -icosaZ⟩ := rfl
      have e1 : (corner icosaBase 9 1).Position = ⟨0, -icosaZ, -icosaX⟩ := rfl
      have e2 : (corner icosaBase 9 2).Position = ⟨-icosaX, 0, -icosaZ⟩ := rfl
      exact goodTri_self _ _
        (by simp only [triNormal]; rw [e0, e1, e2]; norm_num [dot3, icosaX, icosaZ])
        (by simp only [triNormal]; rw [e0, e1, e2]; norm_num [dot3, icosaX, icosaZ])
        (by simp only [triNormal]; rw [e0, e1, e2]; norm_num [dot3, icosaX, icosaZ])
    · have e0 : (corner icosaBase 10 0).Position = ⟨icosaX, 0, -icosaZ⟩ := rfl
      have e1 : (corner icosaBase 10 1).Position = ⟨icosaZ, -icosaX, 0⟩ := rfl
      have e2 : (corner icosaBase 10 2).Position = ⟨0, -icosaZ, -icosaX⟩ := rfl
      exact goodTri_self _ _
        (by simp only [triNormal]; rw [e0, e1, e2]; norm_num [dot3, icosaX, icosaZ])
        (by simp only [triNormal]; rw [e0, e1, e2]; norm_num [dot3, icosaX, icosaZ])
        (by simp only [triNormal]; rw [e0, e1, e2]; norm_num [dot3, icosaX, icosaZ])
    · have e0 : (corner icosaBase 11 0).Position = ⟨icosaZ, -icosaX, 0⟩ := rfl
      have e1 : (corner icosaBase 11 1).Position = ⟨0, -icosaZ, icosaX⟩ := rfl
      have e2 : (corner icosaBase 11 2).Position = ⟨0, -icosaZ, -icosaX⟩ := rfl
      exact goodTri_self _ _
        (by simp only [triNormal]; rw [e0, e1, e2]; norm_num [dot3, icosaX, icosaZ])
        (by simp only [triNormal]; rw [e0, e1, e2]; norm_num [dot3, icosaX, icosaZ])
        (by simp only [triNormal]; rw [e0, e1, e2]; norm_num [dot3, icosaX, icosaZ])
    · have e0 : (corner icosaBase 12 0).Position = ⟨0, -icosaZ, icosaX⟩ := rfl
      have e1 : (corner icosaBase 12 1).Position = ⟨-icosaZ, -icosaX, 0⟩ := rfl
      have e2 : (corner icosaBase 12 2).Position = ⟨0, -icosaZ, -icosaX⟩ := rfl
      exact goodTri_self _ _
        (by simp only [triNormal]; rw [e0, e1, e2]; norm_num [dot3, icosaX, icosaZ])
        (by simp only [triNormal]; rw [e0, e1, e2]; norm_num [dot3, icosaX, icosaZ])
        (by simp only [triNormal]; rw [e0, e1, e2]; norm_num [dot3, icosaX, icosaZ])
    · have e0 : (corner icosaBase 13 0).Position = ⟨0, -icosaZ, icosaX⟩ := rfl
      have e1 : (corner icosaBase 13 1).Position = ⟨-icosaX, 0, icosaZ⟩ := rfl
      have e2 : (corner icosaBase 13 2).Position = ⟨-icosaZ, -icosaX, 0⟩ := rfl
      exact goodTri_self _ _
        (by simp only [triNormal]; rw [e0, e1, e2]; norm_num [dot3, icosaX, icosaZ])
        (by simp only [triNormal]; rw [e0, e1, e2]; norm_num [dot3, icosaX, icosaZ])
        (by simp only [triNormal]; rw [e0, e1, e2]; norm_num [dot3, icosaX, icosaZ])
    · have e0 : (corner icosaBase 14 0).Position = ⟨0, -icosaZ, icosaX⟩ := rfl
      have e1 : (corner icosaBase 14 1).Position = ⟨icosaX, 0, icosaZ⟩ := rfl
      have e2 : (corner icosaBase 14 2).Position = ⟨-icosaX, 0, icosaZ⟩ := rfl
      exact goodTri_self _ _
        (by simp only [triNormal]; rw [e0, e1, e2]; norm_num [dot3, icosaX, icosaZ])
        (by simp only [triNormal]; rw [e0, e1, e2]; norm_num [dot3, icosaX, icosaZ])
        (by simp only [triNormal]; rw [e0, e1, e2]; norm_num [dot3, icosaX, icosaZ])
    · have e0 : (corner icosaBase 15 0).Position = ⟨icosaZ, -icosaX, 0⟩ := rfl
      have e1 : (corner icosaBase 15 1).Position = ⟨icosaX, 0, icosaZ⟩ := rfl
      have e2 : (corner icosaBase 15 2).Position = ⟨0, -icosaZ, icosaX⟩ := rfl
      exact goodTri_self _ _
        (by simp only [triNormal]; rw [e0, e1, e2]; norm_num [dot3, icosaX, icosaZ])
        (by simp only [triNormal]; rw [e0, e1, e2]; norm_num [dot3, icosaX, icosaZ])
        (by simp only [triNormal]; rw [e0, e1, e2]; norm_num [dot3, icosaX, icosaZ])
    · have e0 : (corner icosaBase 16 0).Position = ⟨-icosaZ, -icosaX, 0⟩ := rfl
      have e1 : (corner icosaBase 16 1).Position = ⟨-icosaX, 0, icosaZ⟩ := rfl
      have e2 : (corner icosaBase 16 2).Position = ⟨-icosaZ, icosaX, 0⟩ := rfl
      exact goodTri_self _ _
        (by simp only [triNormal]; rw [e0, e1, e2]; norm_num [dot3, icosaX, icosaZ])
        (by simp only [triNormal]; rw [e0, e1, e2]; norm_num [dot3, icosaX, icosaZ])
        (by simp only [triNormal]; rw [e0, e1, e2]; norm_num [dot3, icosaX, icosaZ])
    · have e0 : (corner icosaBase 17 0).Position = ⟨-icosaX, 0, -icosaZ⟩ := rfl
      have e1 : (corner icosaBase 17 1).Position = ⟨-icosaZ, -icosaX, 0⟩ := rfl
      have e2 : (corner icosaBase 17 2).Position = ⟨-icosaZ, icosaX, 0⟩ := rfl
      exact goodTri_self _ _
        (by simp only [triNormal]; rw [e0, e1, e2]; norm_num [dot3, icosaX, icosaZ])
        (by simp only [triNormal]; rw [e0, e1, e2]; norm_num [dot3, icosaX, icosaZ])
        (by simp only [triNormal]; rw [e0, e1, e2]; norm_num [dot3, icosaX, icosaZ])
    · have e0 : (corner icosaBase 18 0).Position = ⟨0, icosaZ, -icosaX⟩ := rfl
      have e1 : (corner icosaBase 18 1).Position = ⟨-icosaX, 0, -icosaZ⟩ := rfl
      have e2 : (corner icosaBase 18 2).Position = ⟨-icosaZ, icosaX, 0⟩ := rfl
      exact goodTri_self _ _
        (by simp only [triNormal]; rw [e0, e1, e2]; norm_num [dot3, icosaX, icosaZ])
        (by simp only [triNormal]; rw [e0, e1, e2]; norm_num [dot3, icosaX, icosaZ])
        (by simp only [triNormal]; rw [e0, e1, e2]; norm_num [dot3, icosaX, icosaZ])
    · have e0 : (corner icosaBase 19 0).Position = ⟨-icosaZ, -icosaX, 0⟩ := rfl
      have e1 : (corner icosaBase 19 1).Position = ⟨-icosaX, 0, -icosaZ⟩ := rfl
      have e2 : (corner icosaBase 19 2).Position = ⟨0, -icosaZ, -icosaX⟩ := rfl
      exact goodTri_self _ _
        (by simp only [triNormal]; rw [e0, e1, e2]; norm_num [dot3, icosaX, icosaZ])
        (by simp only [triNormal]; rw [e0, e1, e2]; norm_num [dot3, icosaX, icosaZ])
        (by simp only [triNormal]; rw [e0, e1, e2]; norm_num [dot3, icosaX, icosaZ])

theorem geospherePre_goodMesh (k : Nat) : GoodMesh (geospherePre k) :=
  goodMesh_iterate _ _ icosa_goodMesh

theorem normSq3_pos_of_ne (p : Float3) (h : p ≠ ⟨0, 0, 0⟩) : 0 < normSq3 p := by
  rcases p with ⟨x, y, z⟩
  have hne : ¬(x = 0 ∧ y = 0 ∧ z = 0) := by
    rintro ⟨hx, hy, hz⟩
    exact h (by simp [hx, hy, hz])
  have h0 : 0 ≤ x * x + y * y + z * z := by
    nlinarith [mul_self_nonneg x, mul_self_nonneg y, mul_self_nonneg z]
  rcases eq_or_lt_of_le h0 with heq | hlt
  · exfalso
    have hxx : x * x = 0 := by
      nlinarith [mul_self_nonneg x, mul_self_nonneg y, mul_self_nonneg z]
    have hyy : y * y = 0 := by
      nlinarith [mul_self_nonneg x, mul_self_nonneg y, mul_self_nonneg z]
    have hzz : z * z = 0 := by
      nlinarith [mul_self_nonneg x, mul_self_nonneg y, mul_self_nonneg z]
    exact hne ⟨mul_self_eq_zero.mp hxx, mul_self_eq_zero.mp hyy,
      mul_self_eq_zero.mp hzz⟩
  · exact hlt

/-- C8: for every positive radius and every subdivision depth 0–5, every
vertex of the geosphere lies at distance exactly the requested radius from
the origin after the projection step, which rescales each pre-projection
position `p` (none of which is the origin) by `radius / ‖p‖`.  Stated over
exact rationals/reals, so "within floating-point tolerance" holds a
fortiori. -/
theorem geosphere_vertices_at_requested_radius (r : ℝ) (hr : 0 < r)
    (k : Nat) (hk : k ≤ 5) :
    ∀ vtx ∈ (geospherePre k).Vertices,
      Real.sqrt
        ((r / Real.sqrt ((posNormSq vtx : ℚ) : ℝ) * ((vtx.Position.x : ℚ) : ℝ)) ^ 2 +
         (r / Real.sqrt ((posNormSq vtx : ℚ) : ℝ) * ((vtx.Position.y : ℚ) : ℝ)) ^ 2 +
         (r / Real.sqrt ((posNormSq vtx : ℚ) : ℝ) * ((vtx.Position.z : ℚ) : ℝ)) ^ 2) =
        r := by
  intro vtx hvtx
  have hnz : vtx.Position ≠ ⟨0, 0, 0⟩ := (geospherePre_goodMesh k).1 vtx hvtx
  have hpos : 0 < posNormSq vtx := normSq3_pos_of_ne _ hnz
  have hq : ((posNormSq vtx : ℚ) : ℝ) =
      ((vtx.Position.x : ℚ) : ℝ) ^ 2 + ((vtx.Position.y : ℚ) : ℝ) ^ 2 +
        ((vtx.Position.z : ℚ) : ℝ) ^ 2 := by
    rw [posNormSq, normSq3]
    push_cast
    ring
  have hqpos : (0 : ℝ) < ((posNormSq vtx : ℚ) : ℝ) := by exact_mod_cast hpos
  have hSpos : 0 < Real.sqrt ((posNormSq vtx : ℚ) : ℝ) := Real.sqrt_pos.mpr hqpos
  have hfact :
      (r / Real.sqrt ((posNormSq vtx : ℚ) : ℝ) * ((vtx.Position.x : ℚ) : ℝ)) ^ 2 +
        (r / Real.sqrt ((posNormSq vtx : ℚ) : ℝ) * ((vtx.Position.y : ℚ) : ℝ)) ^ 2 +
        (r / Real.sqrt ((posNormSq vtx : ℚ) : ℝ) * ((vtx.Position.z : ℚ) : ℝ)) ^ 2 =
      (r / Real.sqrt ((posNormSq vtx : ℚ) : ℝ)) ^ 2 * ((posNormSq vtx : ℚ) : ℝ) := by
    rw [hq]
    ring
  rw [hfact, Real.sqrt_mul (sq_nonneg _),
    Real.sqrt_sq (le_of_lt (div_pos hr hSpos))]
  exact div_mul_cancel₀ r (ne_of_gt hSpos)

/-- The first icosahedron vertex, used to witness C8. -/
def icosaV0 : Vertex :=
  ⟨⟨-icosaX, 0, icosaZ⟩, ⟨0, 0, 0⟩, ⟨0, 0, 0⟩, ⟨0, 0⟩⟩

/-- Witness for C8 at radius 1, depth 0, on the first icosahedron
vertex. -/
theorem geosphere_vertices_at_requested_radius_witness :
    Real.sqrt
      ((1 / Real.sqrt ((posNormSq icosaV0 : ℚ) : ℝ) * ((icosaV0.Position.x : ℚ) : ℝ)) ^ 2 +
       (1 / Real.sqrt ((posNormSq icosaV0 : ℚ) : ℝ) * ((icosaV0.Position.y : ℚ) : ℝ)) ^ 2 +
       (1 / Real.sqrt ((posNormSq icosaV0 : ℚ) : ℝ) * ((icosaV0.Position.z : ℚ) : ℝ)) ^ 2) =
      1 :=
  geosphere_vertices_at_requested_radius 1 one_pos 0 (by norm_num) icosaV0
    (List.mem_cons_self _ _)

end GeomGen
